import Mathlib

/-!
Shallow embedding of the backup/restore/clone orchestration scripts
(src/scripts/backup.py, restore.py, clone.py, mkdb.py) of the shared-db
repository, together with theorems settling the frozen claims about them.

External effects (psql, pg_dump, rclone, the filesystem) are modelled as
explicit environment records: each field records the outcome the external
tool would report (exit status, listing contents, existence checks).  The
embedded functions mirror the control flow of the Python source; where a
function issues external commands, the embedding also returns the ordered
trace of the operations it attempted.
-/

namespace SharedDb

/-! ## Character and string helpers

The scripts manipulate paths as strings: split on a separator, strip
trailing slashes, parse decimal integers.  These helpers mirror the Python
primitives used there (str.split with a one-character separator,
str.rstrip, int on the non-negative decimal digit strings produced by the
path layout).  They are written by structural recursion on the character
list so that every concrete instance evaluates by kernel reduction.
-/

/-- Python str.split with a one-character separator: splits into the
(possibly empty) groups between occurrences of the separator. -/
def splitSep (sep : Char) : List Char → List (List Char)
  | [] => [[]]
  | c :: cs =>
    let r := splitSep sep cs
    if c = sep then [] :: r
    else
      match r with
      | [] => [[c]]
      | g :: gs => (c :: g) :: gs

/-- Decimal digit test, as in the regular expression class \d. -/
def isDigit (c : Char) : Bool := '0' ≤ c && c ≤ '9'

/-- Numeric value of a decimal digit character. -/
def digitVal (c : Char) : Nat := c.toNat - '0'.toNat

/-- Value of a non-empty string of decimal digits. -/
def digitsToNat (cs : List Char) : Nat := cs.foldl (fun a c => 10 * a + digitVal c) 0

/-- Python int applied to the path segments this system produces: a
non-empty all-digit group parses to its decimal value, anything else
raises ValueError (modelled as none).  Python int additionally tolerates
signs, surrounding whitespace and digit-group underscores; those forms are
never produced by the unpadded year/month/day path layout this code reads
and writes, so they are not modelled. -/
def parseNat (cs : List Char) : Option Nat :=
  if cs ≠ [] && cs.all isDigit then some (digitsToNat cs) else none

/-- Python str.rstrip with argument "/": drop every trailing slash. -/
def stripSlashes (s : String) : String :=
  ⟨(s.data.reverse.dropWhile (fun c => c = '/')).reverse⟩

/-- Python list comparison on lists of naturals: lexicographic, with a
strict prefix comparing less than the longer list. -/
def natListLt : List Nat → List Nat → Bool
  | [], [] => false
  | [], _ :: _ => true
  | _ :: _, [] => false
  | a :: as, b :: bs => a < b || (a = b && natListLt as bs)

/-- Python string comparison: lexicographic by code point, with a strict
prefix comparing less than the longer string. -/
def charListLt : List Char → List Char → Bool
  | [], [] => false
  | [], _ :: _ => true
  | _ :: _, [] => false
  | a :: as, b :: bs => a < b || (a = b && charListLt as bs)


/-! ## Stable insertion sort

Python list.sort is a stable sort; with reverse=True it produces the
unique stable descending arrangement.  The embedding uses a stable
insertion sort, which computes by kernel reduction and agrees with any
stable sort for a total transitive boolean relation.
-/

/-- Insert x before the first element y with le x y; keeps earlier
elements first on ties, which is exactly the stable placement. -/
def insertLe (le : α → α → Bool) (x : α) : List α → List α
  | [] => [x]
  | y :: ys => if le x y then x :: y :: ys else y :: insertLe le x ys

/-- Stable insertion sort with respect to a boolean relation. -/
def isort (le : α → α → Bool) : List α → List α
  | [] => []
  | x :: xs => insertLe le x (isort le xs)


/-! ## Calendar dates

The scripts validate candidate (year, month, day) triples by constructing
a datetime.date, which accepts years 1..9999 and checks the day against
the Gregorian month length.  Comparison of datetime.date values is
lexicographic on the triple.
-/

structure Date where
  year : Nat
  month : Nat
  day : Nat
deriving DecidableEq, Repr

/-- Gregorian leap-year rule, as used by datetime. -/
def isLeap (y : Nat) : Bool := y % 4 = 0 && (y % 100 ≠ 0 || y % 400 = 0)

/-- Number of days in a month of a given year. -/
def daysInMonth (y m : Nat) : Nat :=
  if m = 2 then (if isLeap y then 29 else 28)
  else if m = 4 ∨ m = 6 ∨ m = 9 ∨ m = 11 then 30
  else 31

/-- Validity of a (year, month, day) triple for datetime.date: year in
MINYEAR..MAXYEAR, month 1..12, day 1..month length. -/
def isValidDate (y m d : Nat) : Bool :=
  1 ≤ y && y ≤ 9999 && 1 ≤ m && m ≤ 12 && 1 ≤ d && d ≤ daysInMonth y m

/-- Strict comparison of datetime.date values: lexicographic on the
(year, month, day) triple. -/
def Date.ltb (a b : Date) : Bool :=
  a.year < b.year ||
    (a.year = b.year &&
      (a.month < b.month || (a.month = b.month && a.day < b.day)))

/-! ## Remote backup index (restore.py)

list_cloud_backups keeps, from a raw recursive rclone listing, exactly the
three-segment paths whose segments form a valid calendar date (trailing
slash stripped first), and sorts them newest first by the decomposed
integer tuple (list.sort with key [int(p) for p in x.split("/")] and
reverse=True, a stable descending sort).
-/

/-- Date parse shared by the three folder scans: accept a path exactly
when, after stripping trailing slashes, it has three slash-separated
segments that parse as integers forming a valid calendar date. -/
def parseDateFolder (s : String) : Option Date :=
  match (splitSep '/' (stripSlashes s).data).mapM parseNat with
  | some [y, m, d] => if isValidDate y m d then some ⟨y, m, d⟩ else none
  | _ => none

/-- Sort key of list_cloud_backups: the list of integer values of the
slash-separated segments.  Every string reaching the sort has been
filtered to an all-digit three-segment date path, on which parseNat
succeeds; getD 0 is never exercised there. -/
def folderKey (s : String) : List Nat :=
  (splitSep '/' s.data).map (fun g => (parseNat g).getD 0)

/-- Comparison used for the newest-first arrangement: a may precede b
exactly when the key of a is not smaller, matching a stable descending
sort by key. -/
def keyGe (a b : String) : Bool := ! natListLt (folderKey a) (folderKey b)


/-- Date folders kept by the listing filter, trailing slashes stripped, in
listing order. -/
def dateFolders (raw : List String) : List String :=
  raw.filterMap (fun f0 =>
    let f := stripSlashes f0
    if (parseDateFolder f).isSome then some f else none)

/-- Embedding of list_cloud_backups: raw is the line-split output of the
recursive rclone lsf over the records root (the call itself is an external
effect; a non-zero exit there raises before this function has any folders
to process).  Filters to valid date folders and sorts newest first by the
decomposed integer tuple. -/
def list_cloud_backups (raw : List String) : List String :=
  isort keyGe (dateFolders raw)

/-- Embedding of check_file_in_cloud: filesIn gives the files-only rclone
listing of a folder, none meaning the listing call exited non-zero, in
which case the function reports false. -/
def check_file_in_cloud (filesIn : String → Option (List String))
    (date_folder filename : String) : Bool :=
  match filesIn date_folder with
  | none => false
  | some files => filename ∈ files

/-- Embedding of guess_latest_cloud_backup_for_db: walk the newest-first
folder list and return the first folder whose file listing contains
db.sql; none models the fatal sys.exit when every folder has been
exhausted. -/
def guess_latest_cloud_backup_for_db (raw : List String)
    (filesIn : String → Option (List String)) (db : String) : Option String :=
  (list_cloud_backups raw).find?
    (fun f => check_file_in_cloud filesIn f (db ++ ".sql"))

/-! ## Date argument parsing (restore.py parse_date_arg)

The function accepts YYYY-MM-DD or YYYY/MM/DD with one- or two-digit
month and day (regular expressions with \d{4} sep \d{1,2} sep \d{1,2}),
validates the triple with datetime.date and renders the unpadded
year/month/day path.  Both fatal sys.exit paths are modelled as Except
errors carrying the corresponding message.  Digits are modelled as ASCII
0..9, the forms the system writes and documents.
-/

/-- Match of the three digit groups of either date regular expression:
exactly three separator-split groups of lengths 4, 1-2 and 1-2, all
digits. -/
def matchDateGroups (groups : List (List Char)) : Option (Nat × Nat × Nat) :=
  match groups with
  | [y, m, d] =>
    if y.length = 4 && y.all isDigit
        && (m.length = 1 || m.length = 2) && m.all isDigit
        && (d.length = 1 || d.length = 2) && d.all isDigit
    then some (digitsToNat y, digitsToNat m, digitsToNat d)
    else none
  | _ => none

/-- Unpadded year/month/day rendering, as in the f-string of the source. -/
def renderDateFolder (y m d : Nat) : String :=
  toString y ++ "/" ++ toString m ++ "/" ++ toString d

/-- Embedding of parse_date_arg: try the dash format, then the slash
format; parse the integer triple; validate it with datetime.date; render
the canonical unpadded path.  The two sys.exit messages of the source are
the two error cases. -/
def parse_date_arg (s : String) : Except String String :=
  match matchDateGroups (splitSep '-' s.data) with
  | some (y, m, d) =>
    if isValidDate y m d then Except.ok (renderDateFolder y m d)
    else Except.error ("ERROR: Invalid date: " ++ s)
  | none =>
    match matchDateGroups (splitSep '/' s.data) with
    | some (y, m, d) =>
      if isValidDate y m d then Except.ok (renderDateFolder y m d)
      else Except.error ("ERROR: Invalid date: " ++ s)
    | none =>
      Except.error ("ERROR: Invalid date format: " ++ s
        ++ " (expected YYYY-MM-DD or YYYY/MM/DD)")

/-! ## Retention pruning (backup.py prune_cloud_backups and
restore.py cleanup_old_manual_backups)

Both passes list date folders recursively under their root, and for every
valid date folder strictly older than the cutoff issue an rclone purge
with check=False, so a failed purge never interrupts the loop.  The cutoff
is computed in the source as datetime.date.today() minus the retention
horizon; that subtraction happens inside the datetime library, so the
embedding receives the resulting cutoff date.  listingOk is the exit
status of the initial recursive listing (on failure the pass does
nothing); purgeOk gives the exit status of each purge.  The returned list
records, in order, each purge attempted and its outcome.
-/

/-- Embedding of prune_cloud_backups over the records tree. -/
def prune_cloud_backups (cutoff : Date) (listingOk : Bool)
    (folders : List String) (purgeOk : String → Bool) : List (String × Bool) :=
  if listingOk = false then []
  else
    folders.filterMap (fun f0 =>
      let f := stripSlashes f0
      match parseDateFolder f with
      | some dt => if Date.ltb dt cutoff then some (f, purgeOk f) else none
      | none => none)

/-- Embedding of cleanup_old_manual_backups over the manual_backups tree:
same scan, filter and check=False purge loop, wrapped in a
catch-everything block that the modelled failure modes never trigger. -/
def cleanup_old_manual_backups (cutoff : Date) (listingOk : Bool)
    (folders : List String) (purgeOk : String → Bool) : List (String × Bool) :=
  if listingOk = false then []
  else
    folders.filterMap (fun f0 =>
      let f := stripSlashes f0
      match parseDateFolder f with
      | some dt => if Date.ltb dt cutoff then some (f, purgeOk f) else none
      | none => none)

/-! ## Backup orchestration (backup.py backup_all_databases)

The environment records what the external tools would report: the
database listing (none when the psql call exits non-zero and raises),
the per-database pg_dump outcome, and the rclone copy outcome of the
upload.  Checksum generation catches every exception, the same-day
archive step and the prune pass run rclone with check=False, and the
prune listing failure only prints a warning, so none of those can raise
in the modelled failure modes.  The run record keeps the returned result
dict, whether the call re-raised, and whether the temporary staging
directory was removed.
-/

structure BackupEnv where
  databases : Option (List String)
  dumpOk : String → Bool
  uploadOk : Bool

structure BackupResult where
  status : String
  databases : List String
  errors : List String
  cloud_uploaded : Option Bool
deriving DecidableEq, Repr

structure BackupRun where
  result : BackupResult
  raised : Bool
  stagingRemoved : Bool

/-- Embedding of backup_all_databases.  The temporary directory is made
first; everything after runs inside try/finally, so the staging removal
happens on the exception path as well. -/
def backup_all_databases (env : BackupEnv) : BackupRun :=
  match env.databases with
  | none =>
    { result :=
        { status := "failed"
          databases := []
          errors := ["list_databases failed"]
          cloud_uploaded := none }
      raised := true
      stagingRemoved := true }
  | some dbs =>
    let step := fun (acc : List String × List String) (db : String) =>
      if env.dumpOk db then (acc.1 ++ [db], acc.2)
      else (acc.1, acc.2 ++ ["Failed to dump " ++ db])
    let dumped := (dbs.foldl step ([], [])).1
    let errs := (dbs.foldl step ([], [])).2
    let uploaded := env.uploadOk
    let errs2 := if env.uploadOk then errs else errs ++ ["Cloud upload failed"]
    { result :=
        { status := if errs2.isEmpty then "success" else "partial"
          databases := dumped
          errors := errs2
          cloud_uploaded := some uploaded }
      raised := false
      stagingRemoved := true }

/-! ## Restore orchestration (restore.py main, from staging creation on)

The source resolves the backup folder before creating the temporary
staging directory; from that point everything runs inside try/finally,
with the staging removal in the finally block.  The embedding covers that
region and returns the outcome together with the ordered trace of
operations attempted.  Fidelity notes: safety_backup_before_restore
catches CalledProcessError from both the dump and the upload and returns
None, after which main proceeds; terminate_connections and dropdb run
with check=False and cannot raise; createdb runs with check=True;
restore_from_folder raises on a non-zero psql exit; list_tables runs with
check=False; cleanup_old_manual_backups catches every exception.
-/

inductive REvent
  | download
  | fatalNoFile
  | safetyCheck
  | safetyDump (ok : Bool)
  | safetyUpload (ok : Bool)
  | terminate
  | dropDb
  | createDb (ok : Bool)
  | load (ok : Bool)
  | verify
  | pruneManual
  | cleanupStaging
deriving DecidableEq, Repr

inductive ROutcome
  | success
  | raised (step : String)
  | fatalExit (msg : String)
deriving DecidableEq, Repr

structure RestoreEnv where
  downloadOk : Bool
  filePresent : Bool
  dbExists : Bool
  safetyDumpOk : Bool
  safetyUploadOk : Bool
  createOk : Bool
  loadOk : Bool

/-- Trace of the safety_backup_before_restore call: check existence, then
attempt the dump, then attempt the upload; the first failure ends the
attempt.  The second component is the returned cloud path (None on skip
or failure). -/
def safetyEvents (env : RestoreEnv) : List REvent × Bool :=
  if env.dbExists = false then ([REvent.safetyCheck], false)
  else if env.safetyDumpOk = false then
    ([REvent.safetyCheck, REvent.safetyDump false], false)
  else if env.safetyUploadOk = false then
    ([REvent.safetyCheck, REvent.safetyDump true, REvent.safetyUpload false], false)
  else
    ([REvent.safetyCheck, REvent.safetyDump true, REvent.safetyUpload true], true)

/-- Embedding of restore.py main after the temporary staging directory is
created: download the single dump file, verify it landed, run the safety
backup unless the operator passed the skip flag, terminate connections,
drop and recreate the database, load the dump, verify, prune manual
backups, and remove the staging directory in the finally block on every
path. -/
def restore_main (skip : Bool) (env : RestoreEnv) : ROutcome × List REvent :=
  if env.downloadOk = false then
    (ROutcome.raised "download", [REvent.download, REvent.cleanupStaging])
  else if env.filePresent = false then
    (ROutcome.fatalExit "no backup",
      [REvent.download, REvent.fatalNoFile, REvent.cleanupStaging])
  else
    let sEvts : List REvent := if skip then [] else (safetyEvents env).1
    let pre : List REvent :=
      REvent.download :: sEvts ++ [REvent.terminate, REvent.dropDb]
    if env.createOk = false then
      (ROutcome.raised "createdb", pre ++ [REvent.createDb false, REvent.cleanupStaging])
    else if env.loadOk = false then
      (ROutcome.raised "load",
        pre ++ [REvent.createDb true, REvent.load false, REvent.cleanupStaging])
    else
      (ROutcome.success,
        pre ++ [REvent.createDb true, REvent.load true, REvent.verify,
          REvent.pruneManual, REvent.cleanupStaging])

/-- Does some occurrence of a appear strictly before some occurrence of b
in the list? -/
def precedesB [DecidableEq α] (a b : α) : List α → Bool
  | [] => false
  | x :: xs => if x = a then xs.contains b else precedesB a b xs

/-! ## Clone orchestration (clone.py clone_database)

Preconditions are checked first through db_exists queries; a violation
raises ValueError before any mutating call.  create_db runs with
check=True.  The pipe spawns pg_dump and psql; after communicate, only
the psql return code is examined (p1.returncode is never read), so the
outcome depends on loadExit alone.
-/

inductive CEvent
  | checkSource
  | checkTarget
  | createTarget
  | spawnDump
  | spawnLoad
deriving DecidableEq, Repr

inductive COutcome
  | precondFailed (msg : String)
  | raisedCreate
  | raisedPipe (code : Nat)
  | ok
deriving DecidableEq, Repr

structure CloneEnv where
  sourceExists : Bool
  targetExists : Bool
  createOk : Bool
  dumpExit : Nat
  loadExit : Nat

/-- Embedding of clone_database, returning the outcome and the ordered
trace of external operations attempted. -/
def clone_database (env : CloneEnv) : COutcome × List CEvent :=
  if env.sourceExists = false then
    (COutcome.precondFailed "source does not exist", [CEvent.checkSource])
  else if env.targetExists = true then
    (COutcome.precondFailed "target already exists",
      [CEvent.checkSource, CEvent.checkTarget])
  else if env.createOk = false then
    (COutcome.raisedCreate,
      [CEvent.checkSource, CEvent.checkTarget, CEvent.createTarget])
  else
    let evts := [CEvent.checkSource, CEvent.checkTarget, CEvent.createTarget,
      CEvent.spawnDump, CEvent.spawnLoad]
    if env.loadExit ≠ 0 then (COutcome.raisedPipe env.loadExit, evts)
    else (COutcome.ok, evts)

/-! ## Standalone database creation (mkdb.py create_database)

The function first queries db_exists; when the name exists it prints an
informational line and returns without issuing any CREATE DATABASE
command.  Otherwise it issues the CREATE with check=True.
-/

structure MkdbEnv where
  dbExists : Bool
  createOk : Bool

inductive MkdbOutcome
  | ok
  | raisedCreate
deriving DecidableEq, Repr

/-- Embedding of create_database: the outcome together with whether a
CREATE DATABASE command was issued. -/
def create_database (env : MkdbEnv) : MkdbOutcome × Bool :=
  if env.dbExists then (MkdbOutcome.ok, false)
  else if env.createOk then (MkdbOutcome.ok, true)
  else (MkdbOutcome.raisedCreate, true)


/-! ## Helper lemmas -/

theorem natListLt_irrefl (l : List Nat) : natListLt l l = false := by
  induction l with
  | nil => rfl
  | cons a as ih => simp [natListLt, ih]

theorem natListLt_trans : ∀ {a b c : List Nat},
    natListLt a b = true → natListLt b c = true → natListLt a c = true := by
  intro a
  induction a with
  | nil =>
    intro b c hab hbc
    cases b with
    | nil => simp [natListLt] at hab
    | cons y ys =>
      cases c with
      | nil => simp [natListLt] at hbc
      | cons z zs => simp [natListLt]
  | cons x xs ih =>
    intro b c hab hbc
    cases b with
    | nil => simp [natListLt] at hab
    | cons y ys =>
      cases c with
      | nil => simp [natListLt] at hbc
      | cons z zs =>
        simp only [natListLt, Bool.or_eq_true, Bool.and_eq_true,
          decide_eq_true_eq] at hab hbc ⊢
        rcases hab with h1 | ⟨h1, h1'⟩
        · rcases hbc with h2 | ⟨h2, h2'⟩
          · exact Or.inl (Nat.lt_trans h1 h2)
          · exact Or.inl (h2 ▸ h1)
        · rcases hbc with h2 | ⟨h2, h2'⟩
          · exact Or.inl (h1 ▸ h2)
          · exact Or.inr ⟨h1.trans h2, ih h1' h2'⟩

theorem natListLt_trichotomy : ∀ (a b : List Nat),
    natListLt a b = true ∨ a = b ∨ natListLt b a = true := by
  intro a
  induction a with
  | nil =>
    intro b
    cases b with
    | nil => exact Or.inr (Or.inl rfl)
    | cons y ys => exact Or.inl (by simp [natListLt])
  | cons x xs ih =>
    intro b
    cases b with
    | nil => exact Or.inr (Or.inr (by simp [natListLt]))
    | cons y ys =>
      rcases Nat.lt_trichotomy x y with h | h | h
      · exact Or.inl (by simp [natListLt, h])
      · rcases ih ys with h' | h' | h'
        · exact Or.inl (by simp [natListLt, h, h'])
        · exact Or.inr (Or.inl (by rw [h, h']))
        · exact Or.inr (Or.inr (by simp [natListLt, h.symm, h']))
      · exact Or.inr (Or.inr (by simp [natListLt, h]))

theorem natListLt_asymm {a b : List Nat}
    (h : natListLt a b = true) : natListLt b a = false := by
  by_contra hc
  have hba : natListLt b a = true := by
    cases hba : natListLt b a with
    | false => exact absurd hba hc
    | true => rfl
  have := natListLt_trans h hba
  rw [natListLt_irrefl] at this
  exact Bool.false_ne_true this

theorem perm_insertLe (le : α → α → Bool) (x : α) :
    ∀ l : List α, (insertLe le x l).Perm (x :: l) := by
  intro l
  induction l with
  | nil => simp [insertLe]
  | cons y ys ih =>
    by_cases h : le x y = true
    · simp [insertLe, h]
    · simp only [insertLe, h, if_false]
      exact (ih.cons y).trans (List.Perm.swap x y ys)

theorem perm_isort (le : α → α → Bool) :
    ∀ l : List α, (isort le l).Perm l := by
  intro l
  induction l with
  | nil => simp [isort]
  | cons x xs ih =>
    exact (perm_insertLe le x (isort le xs)).trans (ih.cons x)

theorem pairwise_insertLe (le : α → α → Bool)
    (htotal : ∀ a b, le a b = true ∨ le b a = true)
    (htrans : ∀ a b c, le a b = true → le b c = true → le a c = true)
    (x : α) :
    ∀ l : List α, l.Pairwise (fun a b => le a b = true) →
      (insertLe le x l).Pairwise (fun a b => le a b = true) := by
  intro l
  induction l with
  | nil => intro _; simp [insertLe]
  | cons y ys ih =>
    intro hp
    rcases List.pairwise_cons.mp hp with ⟨hy, hys⟩
    by_cases h : le x y = true
    · simp only [insertLe, h, if_true]
      refine List.pairwise_cons.mpr ⟨?_, hp⟩
      intro z hz
      rcases List.mem_cons.mp hz with rfl | hz'
      · exact h
      · exact htrans x y z h (hy z hz')
    · simp only [insertLe, h, if_false]
      refine List.pairwise_cons.mpr ⟨?_, ih hys⟩
      intro z hz
      have hz' := (perm_insertLe le x ys).mem_iff.mp hz
      rcases List.mem_cons.mp hz' with rfl | hz''
      · rcases htotal z y with h' | h'
        · exact absurd h' h
        · exact h'
      · exact hy z hz''

theorem pairwise_isort (le : α → α → Bool)
    (htotal : ∀ a b, le a b = true ∨ le b a = true)
    (htrans : ∀ a b c, le a b = true → le b c = true → le a c = true) :
    ∀ l : List α, (isort le l).Pairwise (fun a b => le a b = true) := by
  intro l
  induction l with
  | nil => simp [isort]
  | cons x xs ih => exact pairwise_insertLe le htotal htrans x (isort le xs) ih

theorem keyGe_total (a b : String) : keyGe a b = true ∨ keyGe b a = true := by
  unfold keyGe
  rcases natListLt_trichotomy (folderKey a) (folderKey b) with h | h | h
  · right
    rw [natListLt_asymm h]
    rfl
  · left
    rw [h, natListLt_irrefl]
    rfl
  · left
    rw [natListLt_asymm h]
    rfl

theorem keyGe_trans (a b c : String)
    (hab : keyGe a b = true) (hbc : keyGe b c = true) : keyGe a c = true := by
  unfold keyGe at *
  rcases natListLt_trichotomy (folderKey a) (folderKey b) with h | h | h
  · rw [h] at hab
    exact absurd hab (by simp)
  · rw [h]
    exact hbc
  · rcases natListLt_trichotomy (folderKey b) (folderKey c) with h' | h' | h'
    · rw [h'] at hbc
      exact absurd hbc (by simp)
    · rw [← h']
      rw [natListLt_asymm h]
      rfl
    · rw [natListLt_asymm (natListLt_trans h' h)]
      rfl



/-! ## Claim theorems -/

/-- C10: calling create_database on a name that already exists is a
successful no-op: it returns without error and without issuing any CREATE
DATABASE command, whatever a CREATE would have reported, so repeated calls
at the public interface are idempotent. -/
theorem c10_create_database_existing_noop (env : MkdbEnv)
    (h : env.dbExists = true) :
    create_database env = (MkdbOutcome.ok, false) := by
  simp [create_database, h]

/-- Witness for C10: a concrete environment where the database exists and
the CREATE command would fail, yet the call succeeds without issuing it. -/
theorem c10_witness :
    create_database ⟨true, false⟩ = (MkdbOutcome.ok, false) :=
  c10_create_database_existing_noop ⟨true, false⟩ rfl

/-- C8: when the source database does not exist or the target database
already exists, clone_database fails with a precondition error and the
trace contains no create, no dump spawn and no load spawn. -/
theorem c8_clone_preconditions (env : CloneEnv)
    (h : env.sourceExists = false ∨ env.targetExists = true) :
    (∃ msg, (clone_database env).1 = COutcome.precondFailed msg) ∧
      CEvent.createTarget ∉ (clone_database env).2 ∧
      CEvent.spawnDump ∉ (clone_database env).2 ∧
      CEvent.spawnLoad ∉ (clone_database env).2 := by
  cases hs : env.sourceExists with
  | false =>
    refine ⟨⟨"source does not exist", ?_⟩, ?_, ?_, ?_⟩ <;> simp [clone_database, hs]
  | true =>
    have ht : env.targetExists = true := by
      rcases h with h | h
      · rw [hs] at h
        exact absurd h (by simp)
      · exact h
    refine ⟨⟨"target already exists", ?_⟩, ?_, ?_, ?_⟩ <;> simp [clone_database, hs, ht]

/-- Witness for C8: the target of the clone already exists; the call fails
as a precondition error with no create, dump or load attempted. -/
theorem c8_witness :
    (∃ msg, (clone_database ⟨true, true, true, 0, 0⟩).1 = COutcome.precondFailed msg) ∧
      CEvent.createTarget ∉ (clone_database ⟨true, true, true, 0, 0⟩).2 ∧
      CEvent.spawnDump ∉ (clone_database ⟨true, true, true, 0, 0⟩).2 ∧
      CEvent.spawnLoad ∉ (clone_database ⟨true, true, true, 0, 0⟩).2 :=
  c8_clone_preconditions ⟨true, true, true, 0, 0⟩ (Or.inr rfl)

/-- C3 counterexample: in a run whose upstream dump side exits 1 while the
downstream load side exits 0, clone_database reports success, because the
source only ever examines the downstream return code.  This refutes the
claim that a non-zero exit of the upstream dump side alone suffices for
the clone to be reported as failed. -/
theorem c3_counterexample :
    (clone_database ⟨true, false, true, 1, 0⟩).1 = COutcome.ok ∧ (1 : Nat) ≠ 0 := by
  exact ⟨rfl, by decide⟩

/-- C3 amended: once the preconditions hold and the target was created,
the stream clone fails exactly when the downstream (load) side of the pipe
exits non-zero; the upstream (dump) exit status is never examined, so the
whole run is independent of it. -/
theorem c3_amended_downstream_only (env : CloneEnv)
    (h : env.sourceExists = true ∧ env.targetExists = false ∧ env.createOk = true) :
    ((clone_database env).1 = COutcome.ok ↔ env.loadExit = 0) ∧
      ∀ e1 e2 : Nat,
        clone_database { env with dumpExit := e1 } =
          clone_database { env with dumpExit := e2 } := by
  obtain ⟨h1, h2, h3⟩ := h
  constructor
  · by_cases hl : env.loadExit = 0 <;> simp [clone_database, h1, h2, h3, hl]
  · intro e1 e2
    rfl

/-- Witness for C3 amended: a concrete pipe whose load side exits 0 is
reported as a successful clone. -/
theorem c3_witness :
    ((clone_database ⟨true, false, true, 7, 0⟩).1 = COutcome.ok ↔ (0 : Nat) = 0) ∧
      ∀ e1 e2 : Nat,
        clone_database ⟨true, false, true, e1, 0⟩ =
          clone_database ⟨true, false, true, e2, 0⟩ :=
  c3_amended_downstream_only ⟨true, false, true, 7, 0⟩ ⟨rfl, rfl, rfl⟩

/-- C1 counterexample: a run with a single database whose dump fails ends
with status partial although no database at all was dumped, refuting the
claim that a run in which every dump fails and no database is dumped is
not reported as partial. -/
theorem c1_counterexample :
    (backup_all_databases ⟨some ["db1"], fun _ => false, true⟩).result.status = "partial" ∧
      (backup_all_databases ⟨some ["db1"], fun _ => false, true⟩).result.databases = [] ∧
      (backup_all_databases ⟨some ["db1"], fun _ => false, true⟩).raised = false :=
  ⟨rfl, rfl, rfl⟩

/-- C1 amended: the returned status is success exactly when the errors
list is empty, failed exactly when the run raised (which, in the modelled
failure modes, happens only before any dump, so the databases list is then
empty), and partial exactly when errors were recorded and the run did not
raise, regardless of whether any database was dumped. -/
theorem c1_amended_status (env : BackupEnv) :
    ((backup_all_databases env).result.status = "success" ↔
        (backup_all_databases env).result.errors = []) ∧
      ((backup_all_databases env).result.status = "failed" ↔
        (backup_all_databases env).raised = true) ∧
      ((backup_all_databases env).result.status = "partial" ↔
        ((backup_all_databases env).result.errors ≠ [] ∧
          (backup_all_databases env).raised = false)) ∧
      ((backup_all_databases env).raised = true →
        (backup_all_databases env).result.databases = []) := by
  cases henv : env.databases with
  | none =>
    refine ⟨?_, ?_, ?_, ?_⟩ <;> simp [backup_all_databases, henv]
  | some dbs =>
    by_cases he :
        (if env.uploadOk then
            (dbs.foldl (fun acc db =>
              if env.dumpOk db then (acc.1 ++ [db], acc.2)
              else (acc.1, acc.2 ++ ["Failed to dump " ++ db])) ([], [])).2
          else
            (dbs.foldl (fun acc db =>
              if env.dumpOk db then (acc.1 ++ [db], acc.2)
              else (acc.1, acc.2 ++ ["Failed to dump " ++ db])) ([], [])).2
              ++ ["Cloud upload failed"]).isEmpty = true <;>
      refine ⟨?_, ?_, ?_, ?_⟩ <;>
        simp_all [backup_all_databases, henv, List.isEmpty_iff]

/-- C9: the local ephemeral staging directory created at the start of each
orchestration is removed by the time the call returns on every modelled
path: the backup run record always reports the staging removed, and every
restore trace ends with the finally-block staging cleanup, including the
paths where download, the missing-file check, createdb or the load raised. -/
theorem c9_staging_always_removed :
    (∀ env : BackupEnv, (backup_all_databases env).stagingRemoved = true) ∧
      ∀ (skip : Bool) (env : RestoreEnv),
        (restore_main skip env).2.getLast? = some REvent.cleanupStaging := by
  constructor
  · intro env
    cases henv : env.databases <;> simp [backup_all_databases, henv]
  · intro skip env
    obtain ⟨a, b, c, d, e, f, g⟩ := env
    cases skip <;> cases a <;> cases b <;> cases c <;> cases d <;> cases e <;>
      cases f <;> cases g <;> decide

/-- C2 counterexample: with the skip flag off, a run whose safety backup
is attempted and whose dump step fails (so no successful safety backup
exists, and no upload is even tried) still reaches the destructive drop
step, refuting the claim that the restore never reaches the destructive
step when the safety backup was attempted but failed. -/
theorem c2_counterexample :
    REvent.dropDb ∈ (restore_main false ⟨true, true, true, false, true, true, true⟩).2 ∧
      REvent.safetyDump false ∈
        (restore_main false ⟨true, true, true, false, true, true, true⟩).2 ∧
      ∀ ok : Bool,
        REvent.safetyUpload ok ∉
          (restore_main false ⟨true, true, true, false, true, true, true⟩).2 := by
  decide

/-- C2 amended: every run that reaches the destructive drop step was
preceded, in program order, by either the operator opt-out or the entry of
the safety-backup step; with the opt-out no safety-backup work happens at
all; and whenever the safety backup fully succeeds, the successful upload
precedes the destructive step.  A failed attempt, however, does not stop
the restore from reaching the destructive step. -/
theorem c2_amended_safety_ordering (skip : Bool) (env : RestoreEnv) :
    (REvent.dropDb ∈ (restore_main skip env).2 →
        skip = true ∨
          precedesB REvent.safetyCheck REvent.dropDb (restore_main skip env).2 = true) ∧
      (skip = true →
        ∀ ok : Bool,
          REvent.safetyDump ok ∉ (restore_main skip env).2 ∧
            REvent.safetyUpload ok ∉ (restore_main skip env).2) ∧
      (skip = false → env.dbExists = true → env.safetyDumpOk = true →
        env.safetyUploadOk = true → REvent.dropDb ∈ (restore_main skip env).2 →
        precedesB (REvent.safetyUpload true) REvent.dropDb (restore_main skip env).2 = true) := by
  obtain ⟨a, b, c, d, e, f, g⟩ := env
  cases skip <;> cases a <;> cases b <;> cases c <;> cases d <;> cases e <;>
    cases f <;> cases g <;> decide

/-- Witness for C2 amended: in a run where the safety backup succeeds, the
successful upload precedes the destructive drop step. -/
theorem c2_witness :
    precedesB (REvent.safetyUpload true) REvent.dropDb
      (restore_main false ⟨true, true, true, true, true, true, true⟩).2 = true :=
  (c2_amended_safety_ordering false ⟨true, true, true, true, true, true, true⟩).2.2
    rfl rfl rfl rfl (by decide)


/-- Attempted deletions of a prune pass: the map over the filterMap of the
purge loop equals the filter of the stripped folder names by the
date-before-cutoff test, independently of any per-folder purge outcome. -/
theorem prune_attempts_eq (cutoff : Date) (purgeOk : String → Bool) :
    ∀ folders : List String,
      (folders.filterMap (fun f0 =>
        let f := stripSlashes f0
        match parseDateFolder f with
        | some dt => if Date.ltb dt cutoff then some (f, purgeOk f) else none
        | none => none)).map Prod.fst =
      (folders.map stripSlashes).filter (fun f =>
        match parseDateFolder f with
        | some dt => Date.ltb dt cutoff
        | none => false) := by
  intro folders
  induction folders with
  | nil => rfl
  | cons f0 rest ih =>
    simp only [List.filterMap_cons, List.map_cons, List.filter_cons]
    cases hp : parseDateFolder (stripSlashes f0) with
    | none => simpa [hp] using ih
    | some dt =>
      by_cases hlt : Date.ltb dt cutoff = true
      · simp [hp, hlt, ih]
      · simp [hp, hlt, ih]

/-- C5: when the recursive listing succeeds, a prune pass over either tree
attempts to delete exactly the valid date folders whose date is strictly
before the cutoff (today minus the retention horizon, as computed by the
datetime library); folders at or after the cutoff never appear among the
attempts; and the attempted-deletion sequence is the same whatever the
per-folder purge outcomes are, so one failed deletion never prevents the
remaining attempts. -/
theorem c5_prune_exactly_old_folders (cutoff : Date) (folders : List String)
    (purgeOk : String → Bool) :
    ((prune_cloud_backups cutoff true folders purgeOk).map Prod.fst =
        (folders.map stripSlashes).filter (fun f =>
          match parseDateFolder f with
          | some dt => Date.ltb dt cutoff
          | none => false)) ∧
      ((cleanup_old_manual_backups cutoff true folders purgeOk).map Prod.fst =
        (folders.map stripSlashes).filter (fun f =>
          match parseDateFolder f with
          | some dt => Date.ltb dt cutoff
          | none => false)) ∧
      ∀ p1 p2 : String → Bool,
        (prune_cloud_backups cutoff true folders p1).map Prod.fst =
          (prune_cloud_backups cutoff true folders p2).map Prod.fst ∧
        (cleanup_old_manual_backups cutoff true folders p1).map Prod.fst =
          (cleanup_old_manual_backups cutoff true folders p2).map Prod.fst := by
  refine ⟨?_, ?_, ?_⟩
  · simpa [prune_cloud_backups] using prune_attempts_eq cutoff purgeOk folders
  · simpa [cleanup_old_manual_backups] using prune_attempts_eq cutoff purgeOk folders
  · intro p1 p2
    constructor
    · rw [show (prune_cloud_backups cutoff true folders p1).map Prod.fst =
          (folders.map stripSlashes).filter (fun f =>
            match parseDateFolder f with
            | some dt => Date.ltb dt cutoff
            | none => false) from by
          simpa [prune_cloud_backups] using prune_attempts_eq cutoff p1 folders]
      simpa [prune_cloud_backups] using (prune_attempts_eq cutoff p2 folders).symm
    · rw [show (cleanup_old_manual_backups cutoff true folders p1).map Prod.fst =
          (folders.map stripSlashes).filter (fun f =>
            match parseDateFolder f with
            | some dt => Date.ltb dt cutoff
            | none => false) from by
          simpa [cleanup_old_manual_backups] using prune_attempts_eq cutoff p1 folders]
      simpa [cleanup_old_manual_backups] using (prune_attempts_eq cutoff p2 folders).symm

/-- C7: the newest-first ordering of list_cloud_backups is by the
decomposed (year, month, day) integer tuple, descending: the output is
pairwise ordered by the integer-tuple comparison and is a permutation of
the kept date folders.  In particular the date key of 2025/10/9 is
strictly below the key of 2025/10/10 although the lexical string
comparison orders the two the opposite way, and the newest-first output
for those two folders lists 2025/10/10 first. -/
theorem c7_sort_by_integer_tuple :
    (∀ raw : List String,
        List.Pairwise (fun a b => keyGe a b = true) (list_cloud_backups raw)) ∧
      (∀ raw : List String, (list_cloud_backups raw).Perm (dateFolders raw)) ∧
      natListLt (folderKey "2025/10/9") (folderKey "2025/10/10") = true ∧
      charListLt "2025/10/9".data "2025/10/10".data = false ∧
      charListLt "2025/10/10".data "2025/10/9".data = true ∧
      list_cloud_backups ["2025/10/9/", "2025/10/10/"] = ["2025/10/10", "2025/10/9"] := by
  refine ⟨?_, ?_, by decide, by decide, by decide, by decide⟩
  · intro raw
    exact pairwise_isort keyGe keyGe_total keyGe_trans (dateFolders raw)
  · intro raw
    exact perm_isort keyGe (dateFolders raw)

/-- C4: a restore without a date argument scans the valid date folders
newest first and selects the first that contains the file db.sql: a
selected folder is a listed date folder, it contains the file, and every
valid date folder with a strictly newer date key lacks the file; when no
folder contains the file the scan is exhausted and the run exits fatally
(modelled as none). -/
theorem c4_guess_latest (raw : List String)
    (filesIn : String → Option (List String)) (db : String) :
    (∀ f, guess_latest_cloud_backup_for_db raw filesIn db = some f →
        f ∈ list_cloud_backups raw ∧
        check_file_in_cloud filesIn f (db ++ ".sql") = true ∧
        ∀ g ∈ list_cloud_backups raw,
          natListLt (folderKey f) (folderKey g) = true →
          check_file_in_cloud filesIn g (db ++ ".sql") = false) ∧
      (guess_latest_cloud_backup_for_db raw filesIn db = none →
        ∀ g ∈ list_cloud_backups raw,
          check_file_in_cloud filesIn g (db ++ ".sql") = false) := by
  constructor
  · intro f hf
    unfold guess_latest_cloud_backup_for_db at hf
    rcases List.find?_eq_some.mp hf with ⟨hpf, as, bs, heq, has⟩
    have hsorted : List.Pairwise (fun a b => keyGe a b = true) (list_cloud_backups raw) :=
      pairwise_isort keyGe keyGe_total keyGe_trans (dateFolders raw)
    refine ⟨?_, hpf, ?_⟩
    · rw [heq]
      exact List.mem_append.mpr (Or.inr (List.mem_cons_self f bs))
    · intro g hg hlt
      rw [heq] at hg hsorted
      rcases List.mem_append.mp hg with hga | hgb
      · have := has g hga
        simpa using this
      · rcases List.mem_cons.mp hgb with rfl | hgb
        · rw [natListLt_irrefl] at hlt
          exact absurd hlt (by simp)
        · rcases (List.pairwise_append.mp hsorted) with ⟨_, hfb, _⟩
          have hge : keyGe f g = true :=
            (List.pairwise_cons.mp hfb).1 g hgb
          unfold keyGe at hge
          rw [hlt] at hge
          exact absurd hge (by simp)
  · intro hnone g hg
    unfold guess_latest_cloud_backup_for_db at hnone
    have := List.find?_eq_none.mp hnone g hg
    simpa using this

/-- Witness for C4, the acceptance scenario of the specification: folders
2025/10/5 and 2025/10/6 both exist but only 2025/10/5 contains app.sql;
the scan selects 2025/10/5, and the skipped newer folder indeed lacks the
file. -/
theorem c4_witness :
    "2025/10/5" ∈ list_cloud_backups ["2025/10/5/", "2025/10/6/"] ∧
      check_file_in_cloud
        (fun f => if f = "2025/10/5" then some ["app.sql", "SHA256SUMS"]
          else some ["SHA256SUMS"]) "2025/10/5" ("app" ++ ".sql") = true ∧
      ∀ g ∈ list_cloud_backups ["2025/10/5/", "2025/10/6/"],
        natListLt (folderKey "2025/10/5") (folderKey g) = true →
        check_file_in_cloud
          (fun f => if f = "2025/10/5" then some ["app.sql", "SHA256SUMS"]
            else some ["SHA256SUMS"]) g ("app" ++ ".sql") = false :=
  (c4_guess_latest ["2025/10/5/", "2025/10/6/"]
    (fun f => if f = "2025/10/5" then some ["app.sql", "SHA256SUMS"]
      else some ["SHA256SUMS"]) "app").1 "2025/10/5" (by decide)


/-- Splitting a list without the separator yields the single group. -/
theorem splitSep_of_not_mem {sep : Char} :
    ∀ {cs : List Char}, sep ∉ cs → splitSep sep cs = [cs] := by
  intro cs
  induction cs with
  | nil => intro _; rfl
  | cons c cs ih =>
    intro h
    have hc : ¬ c = sep := fun he => h (he ▸ List.mem_cons_self c cs)
    have hcs : sep ∉ cs := fun hm => h (List.mem_cons_of_mem c hm)
    simp [splitSep, hc, ih hcs]

/-- Splitting peels a separator-free group before an explicit separator. -/
theorem splitSep_append_sep {sep : Char} :
    ∀ {xs : List Char}, sep ∉ xs → ∀ rest : List Char,
      splitSep sep (xs ++ sep :: rest) = xs :: splitSep sep rest := by
  intro xs
  induction xs with
  | nil => intro _ rest; simp [splitSep]
  | cons x xs ih =>
    intro h rest
    have hx : ¬ x = sep := fun he => h (he ▸ List.mem_cons_self x xs)
    have hxs : sep ∉ xs := fun hm => h (List.mem_cons_of_mem x hm)
    simp [splitSep, hx, ih hxs rest]

/-- A list of digit characters cannot contain a non-digit character. -/
theorem not_mem_of_all_isDigit {cs : List Char} (h : cs.all isDigit = true)
    {c : Char} (hc : isDigit c = false) : c ∉ cs := by
  intro hm
  have := List.all_eq_true.mp h c hm
  rw [hc] at this
  exact absurd this (by simp)

/-- C6: for digit groups Y (four digits), M and D (one or two digits each),
the dash-separated and the slash-separated spellings parse identically: a
valid calendar triple normalizes to the same canonical unpadded
year/month/day path, and an out-of-range triple such as 2025-13-40 is
rejected with the reported range error instead of being truncated or
adjusted.  Moreover every successful parse, of any string whatsoever,
returns the canonical rendering of a valid triple, so a malformed or
out-of-range string is never answered with a truncated or adjusted
date. -/
theorem c6_parse_date_arg_normalizes (Y M D : List Char)
    (hY : Y.all isDigit = true) (hYl : Y.length = 4)
    (hM : M.all isDigit = true) (hMl : M.length = 1 ∨ M.length = 2)
    (hD : D.all isDigit = true) (hDl : D.length = 1 ∨ D.length = 2) :
    (parse_date_arg ⟨Y ++ '-' :: (M ++ '-' :: D)⟩ =
        if isValidDate (digitsToNat Y) (digitsToNat M) (digitsToNat D)
        then Except.ok (renderDateFolder (digitsToNat Y) (digitsToNat M) (digitsToNat D))
        else Except.error ("ERROR: Invalid date: "
          ++ (⟨Y ++ '-' :: (M ++ '-' :: D)⟩ : String))) ∧
      (parse_date_arg ⟨Y ++ '/' :: (M ++ '/' :: D)⟩ =
        if isValidDate (digitsToNat Y) (digitsToNat M) (digitsToNat D)
        then Except.ok (renderDateFolder (digitsToNat Y) (digitsToNat M) (digitsToNat D))
        else Except.error ("ERROR: Invalid date: "
          ++ (⟨Y ++ '/' :: (M ++ '/' :: D)⟩ : String))) ∧
      (isValidDate (digitsToNat Y) (digitsToNat M) (digitsToNat D) = true →
        parse_date_arg ⟨Y ++ '-' :: (M ++ '-' :: D)⟩ =
          parse_date_arg ⟨Y ++ '/' :: (M ++ '/' :: D)⟩) ∧
      ∀ s r, parse_date_arg s = Except.ok r →
        ∃ y m d, isValidDate y m d = true ∧ r = renderDateFolder y m d := by
  have hdY : ('-' : Char) ∉ Y := not_mem_of_all_isDigit hY (by decide)
  have hdM : ('-' : Char) ∉ M := not_mem_of_all_isDigit hM (by decide)
  have hdD : ('-' : Char) ∉ D := not_mem_of_all_isDigit hD (by decide)
  have hsY : ('/' : Char) ∉ Y := not_mem_of_all_isDigit hY (by decide)
  have hsM : ('/' : Char) ∉ M := not_mem_of_all_isDigit hM (by decide)
  have hsD : ('/' : Char) ∉ D := not_mem_of_all_isDigit hD (by decide)
  have hmg : matchDateGroups [Y, M, D] =
      some (digitsToNat Y, digitsToNat M, digitsToNat D) := by
    rcases hMl with hMl | hMl <;> rcases hDl with hDl | hDl <;>
      simp [matchDateGroups, hY, hYl, hM, hD, hMl, hDl]
  have hg1 : splitSep '-' (Y ++ '-' :: (M ++ '-' :: D)) = [Y, M, D] := by
    rw [splitSep_append_sep hdY, splitSep_append_sep hdM, splitSep_of_not_mem hdD]
  have hg2 : splitSep '/' (Y ++ '/' :: (M ++ '/' :: D)) = [Y, M, D] := by
    rw [splitSep_append_sep hsY, splitSep_append_sep hsM, splitSep_of_not_mem hsD]
  have hnd : ('-' : Char) ∉ (Y ++ '/' :: (M ++ '/' :: D)) := by
    intro hm
    rcases List.mem_append.mp hm with hm | hm
    · exact hdY hm
    · rcases List.mem_cons.mp hm with hm | hm
      · exact absurd hm (by decide)
      · rcases List.mem_append.mp hm with hm | hm
        · exact hdM hm
        · rcases List.mem_cons.mp hm with hm | hm
          · exact absurd hm (by decide)
          · exact hdD hm
  have hg3 : splitSep '-' (Y ++ '/' :: (M ++ '/' :: D)) = [Y ++ '/' :: (M ++ '/' :: D)] :=
    splitSep_of_not_mem hnd
  have h1 : parse_date_arg ⟨Y ++ '-' :: (M ++ '-' :: D)⟩ =
      if isValidDate (digitsToNat Y) (digitsToNat M) (digitsToNat D)
      then Except.ok (renderDateFolder (digitsToNat Y) (digitsToNat M) (digitsToNat D))
      else Except.error ("ERROR: Invalid date: "
        ++ (⟨Y ++ '-' :: (M ++ '-' :: D)⟩ : String)) := by
    unfold parse_date_arg
    dsimp only
    rw [hg1, hmg]
  have h2 : parse_date_arg ⟨Y ++ '/' :: (M ++ '/' :: D)⟩ =
      if isValidDate (digitsToNat Y) (digitsToNat M) (digitsToNat D)
      then Except.ok (renderDateFolder (digitsToNat Y) (digitsToNat M) (digitsToNat D))
      else Except.error ("ERROR: Invalid date: "
        ++ (⟨Y ++ '/' :: (M ++ '/' :: D)⟩ : String)) := by
    unfold parse_date_arg
    dsimp only
    rw [hg3, hg2, hmg]
    rfl
  refine ⟨h1, h2, ?_, ?_⟩
  · intro hv
    rw [h1, h2, if_pos hv, if_pos hv]
  · intro s r h
    unfold parse_date_arg at h
    cases hm1 : matchDateGroups (splitSep '-' s.data) with
    | some t =>
      obtain ⟨y, m, d⟩ := t
      simp only [hm1] at h
      by_cases hv : isValidDate y m d = true
      · rw [if_pos hv] at h
        exact ⟨y, m, d, hv, (Except.ok.injEq _ _ ▸ h).symm⟩
      · rw [if_neg hv] at h
        exact absurd h (by simp)
    | none =>
      simp only [hm1] at h
      cases hm2 : matchDateGroups (splitSep '/' s.data) with
      | some t =>
        obtain ⟨y, m, d⟩ := t
        simp only [hm2] at h
        by_cases hv : isValidDate y m d = true
        · rw [if_pos hv] at h
          exact ⟨y, m, d, hv, (Except.ok.injEq _ _ ▸ h).symm⟩
        · rw [if_neg hv] at h
          exact absurd h (by simp)
      | none =>
        simp only [hm2] at h
        exact absurd h (by simp)

/-- Witness for C6: 2025-10-07 and 2025/10/7 both normalize to the
canonical unpadded path 2025/10/7, and the out-of-range 2025-13-40 is
rejected with the range error. -/
theorem c6_witness :
    parse_date_arg "2025-10-07" = Except.ok (renderDateFolder 2025 10 7) ∧
      parse_date_arg "2025/10/7" = Except.ok (renderDateFolder 2025 10 7) ∧
      parse_date_arg "2025-13-40" = Except.error "ERROR: Invalid date: 2025-13-40" := by
  have h1 := c6_parse_date_arg_normalizes "2025".data "10".data "07".data
    (by decide) (by decide) (by decide) (Or.inr (by decide)) (by decide) (Or.inr (by decide))
  have h2 := c6_parse_date_arg_normalizes "2025".data "10".data "7".data
    (by decide) (by decide) (by decide) (Or.inr (by decide)) (by decide) (Or.inl (by decide))
  have h3 := c6_parse_date_arg_normalizes "2025".data "13".data "40".data
    (by decide) (by decide) (by decide) (Or.inr (by decide)) (by decide) (Or.inr (by decide))
  exact ⟨h1.1, h2.2.1, h3.1⟩

end SharedDb
